import Mathlib

/-!
Verification of the rootiq alert-grouping engine and RCA generator.

Shallow embedding of `backend/app/services/alert_grouper.py` and
`backend/app/services/rca_generator.py` (data model from
`backend/app/models/alert.py` and `backend/app/models/group.py`,
configuration defaults from `backend/app/core/config.py`).

Modelling conventions:
* Python `datetime` values are rationals (seconds since epoch); float
  scores are rationals.
* Python dicts are association lists with first-occurrence lookup;
  `alInsert` is dict assignment, `alErase` is `del`, `alUpdate` models an
  in-place mutation of an object held in the dict (a no-op when the key
  was deleted, mirroring mutation of a dangling reference).
* `datetime.utcnow()` is an explicit `now : ℚ` argument.
* External collaborators (vector store, LLM) are oracles: structures of
  `Except`-valued fields giving each call's outcome.  The wrappers in
  `vector_store.py` / `llm_service.py` that catch exceptions and return
  degraded defaults are modelled as total functions over the oracle.
-/

namespace RootIQ

/-- Alert severity levels (`models/alert.py`, `SeverityLevel`). -/
inductive SeverityLevel where
  | CRITICAL
  | HIGH
  | MEDIUM
  | LOW
  | INFO
deriving DecidableEq, Repr

/-- Alert lifecycle status (`models/alert.py`, `AlertStatus`). -/
inductive AlertStatus where
  | OPEN
  | ACKNOWLEDGED
  | RESOLVED
  | CLOSED
deriving DecidableEq, Repr

/-- Group lifecycle status (`models/group.py`, `GroupStatus`). -/
inductive GroupStatus where
  | ACTIVE
  | INVESTIGATING
  | RESOLVED
  | CLOSED
deriving DecidableEq, Repr

/-- Group priority (`models/group.py`, `GroupPriority`). -/
inductive GroupPriority where
  | CRITICAL
  | HIGH
  | MEDIUM
  | LOW
deriving DecidableEq, Repr

/-- RCA status (`models/group.py`, `RCAStatus`). -/
inductive RCAStatus where
  | PENDING
  | IN_PROGRESS
  | COMPLETED
  | FAILED
deriving DecidableEq, Repr

/-- The rank used by both `severity_hierarchy` (in
`_calculate_severity_compatibility_factor`) and `severity_order` (in
`_is_higher_severity`); the two Python dicts assign identical ranks. -/
def severityRank : SeverityLevel → Nat
  | .CRITICAL => 5
  | .HIGH => 4
  | .MEDIUM => 3
  | .LOW => 2
  | .INFO => 1

/-- `severity_hierarchy.get(x, 3)` applied to an optional severity
(`group.max_severity` may be `None`). -/
def severityRankOpt : Option SeverityLevel → Nat
  | some s => severityRank s
  | none => 3

/-- `str(severity)` for the `str`-mixin enum: the exact text is immaterial
to every claim, only injectivity matters (keys of `severity_distribution`). -/
def severityStr : SeverityLevel → String
  | .CRITICAL => "SeverityLevel.CRITICAL"
  | .HIGH => "SeverityLevel.HIGH"
  | .MEDIUM => "SeverityLevel.MEDIUM"
  | .LOW => "SeverityLevel.LOW"
  | .INFO => "SeverityLevel.INFO"

/-- An alert (`models/alert.py`, class `Alert`).  `metrics` (a free-form
JSON dict used only inside RCA prompt text) is modelled as string pairs. -/
structure Alert where
  id : String
  title : String
  description : String
  severity : SeverityLevel
  source_system : String
  timestamp : ℚ
  service_name : Option String
  host_name : Option String
  environment : Option String
  tags : List String
  metrics : List (String × String)
  status : AlertStatus
  created_at : ℚ
  updated_at : ℚ
  group_id : Option String
  similarity_score : Option ℚ
  processed : Bool
  embedding_generated : Bool
deriving DecidableEq, Repr

/-- An alert group (`models/group.py`, class `AlertGroup`). -/
structure AlertGroup where
  id : String
  title : String
  description : String
  priority : GroupPriority
  status : GroupStatus
  similarity_threshold : ℚ
  root_cause_hypothesis : Option String
  tags : List String
  category : Option String
  created_at : ℚ
  updated_at : ℚ
  alert_count : Nat
  alert_ids : List String
  max_severity : Option SeverityLevel
  severity_distribution : List (String × Nat)
  first_alert_time : Option ℚ
  last_alert_time : Option ℚ
  duration_minutes : Option ℚ
  rca_status : RCAStatus
  rca_content : Option String
  rca_confidence : Option ℚ
  rca_generated_at : Option ℚ
  affected_services : List String
  affected_hosts : List String
  affected_environments : List String
  resolved_at : Option ℚ
  resolution_notes : Option String
  assigned_to : Option String
deriving DecidableEq, Repr

/-- Association-list lookup: Python `dict` access / `in` test. -/
def alLookup {α : Type} : List (String × α) → String → Option α
  | [], _ => none
  | p :: rest, key => if p.1 = key then some p.2 else alLookup rest key

/-- Association-list assignment: Python `d[key] = v`. -/
def alInsert {α : Type} : List (String × α) → String → α → List (String × α)
  | [], key, v => [(key, v)]
  | p :: rest, key, v => if p.1 = key then (key, v) :: rest else p :: alInsert rest key v

/-- Association-list deletion: Python `del d[key]`. -/
def alErase {α : Type} : List (String × α) → String → List (String × α)
  | [], _ => []
  | p :: rest, key => if p.1 = key then alErase rest key else p :: alErase rest key

/-- In-place mutation of the object stored at `key`, if any: models writing
through a Python object reference that the dict may still hold. -/
def alUpdate {α : Type} : List (String × α) → String → α → List (String × α)
  | [], _, _ => []
  | p :: rest, key, v => (if p.1 = key then (key, v) else p) :: alUpdate rest key v

/-- `config.py`: `SIMILARITY_THRESHOLD: float = 0.8`. -/
def SIMILARITY_THRESHOLD : ℚ := 8/10

/-- `config.py`: `MAX_GROUP_SIZE: int = 50`. -/
def MAX_GROUP_SIZE : Nat := 50

/-- A `{"alert_id": ..., "similarity": ..., "metadata": {...}}` record
returned by `vector_store.find_similar_alerts`; the metadata parts the
grouper reads are the optional `title` (prompt text only). -/
structure SimilarAlert where
  alert_id : String
  similarity : ℚ
  title : Option String
deriving DecidableEq, Repr

/-- The grouping engine's state (`AlertGrouper.active_groups` and
`AlertGrouper.alert_to_group_mapping`). -/
structure GrouperState where
  active_groups : List (String × AlertGroup)
  alert_to_group_mapping : List (String × String)
deriving DecidableEq, Repr

/-- `AlertGrouper._calculate_time_proximity_factor` (the `except` fallback
returning 0.5 is unreachable: the body is total). -/
def calculate_time_proximity_factor (alert : Alert) (group : AlertGroup) : ℚ :=
  match group.last_alert_time with
  | none => 1
  | some t =>
    let time_diff : ℚ := |alert.timestamp - t|
    if time_diff ≤ 3600 then 1
    else if time_diff ≤ 86400 then 1 - (time_diff - 3600) / (86400 - 3600)
    else 1/10

/-- The host-affinity tail of `_calculate_service_affinity_factor`
(`if alert.host_name and alert.host_name in group.affected_hosts`; an
empty-string host is falsy in Python). -/
def hostAffinity (alert : Alert) (group : AlertGroup) : ℚ :=
  match alert.host_name with
  | some hn => if hn ≠ "" ∧ hn ∈ group.affected_hosts then 8/10 else 3/10
  | none => 3/10

/-- `AlertGrouper._calculate_service_affinity_factor` (an empty-string
service name is falsy in Python, so it falls through to the host check). -/
def calculate_service_affinity_factor (alert : Alert) (group : AlertGroup) : ℚ :=
  match alert.service_name with
  | some sn =>
    if sn ≠ "" ∧ sn ∈ group.affected_services then 1
    else hostAffinity alert group
  | none => hostAffinity alert group

/-- `AlertGrouper._calculate_severity_compatibility_factor`. -/
def calculate_severity_compatibility_factor (alert : Alert) (group : AlertGroup) : ℚ :=
  let alert_severity : Int := severityRank alert.severity
  let group_max_severity : Int := severityRankOpt group.max_severity
  let severity_diff := (alert_severity - group_max_severity).natAbs
  if severity_diff = 0 then 1
  else if severity_diff = 1 then 8/10
  else if severity_diff = 2 then 6/10
  else 3/10

/-- `AlertGrouper._calculate_environment_factor` (`if not
alert.environment` is Python truthiness: `None` and the empty string both
give the 0.5 default). -/
def calculate_environment_factor (alert : Alert) (group : AlertGroup) : ℚ :=
  match alert.environment with
  | none => 1/2
  | some env =>
    if env = "" then 1/2
    else if env ∈ group.affected_environments then 1 else 1/5

/-- `AlertGrouper._calculate_group_compatibility`: weighted combination of
the five factors, clamped to [0,1]. -/
def calculate_group_compatibility (alert : Alert) (group : AlertGroup)
    (similar_alerts : List SimilarAlert) : ℚ :=
  let avg_similarity : ℚ :=
    if similar_alerts = [] then 0
    else (similar_alerts.map SimilarAlert.similarity).sum / similar_alerts.length
  let time_factor := calculate_time_proximity_factor alert group
  let service_factor := calculate_service_affinity_factor alert group
  let severity_factor := calculate_severity_compatibility_factor alert group
  let env_factor := calculate_environment_factor alert group
  let compatibility_score :=
    avg_similarity * (4/10) + time_factor * (2/10) + service_factor * (2/10) +
      severity_factor * (1/10) + env_factor * (1/10)
  min 1 (max 0 compatibility_score)

/-- One step of the best-candidate scan in `AlertGrouper._select_best_group`:
the accumulator is `(best_group_id, best_score)`. -/
def selectStep (alert : Alert) (s : GrouperState) (acc : Option String × ℚ)
    (cand : String × List SimilarAlert) : Option String × ℚ :=
  match alLookup s.active_groups cand.1 with
  | none => acc
  | some group =>
    if MAX_GROUP_SIZE ≤ group.alert_count then acc
    else if group.status = GroupStatus.RESOLVED ∨ group.status = GroupStatus.CLOSED then acc
    else
      let score := calculate_group_compatibility alert group cand.2
      if acc.2 < score then (some cand.1, score) else acc

/-- `AlertGrouper._select_best_group`. -/
def select_best_group (alert : Alert) (candidate_groups : List (String × List SimilarAlert))
    (s : GrouperState) : Option String :=
  let best := candidate_groups.foldl (selectStep alert s) (none, 0)
  if SIMILARITY_THRESHOLD ≤ best.2 then best.1 else none

/-- `AlertGrouper._find_candidate_groups`. -/
def find_candidate_groups (similar_alerts : List SimilarAlert) (s : GrouperState) :
    List (String × List SimilarAlert) :=
  similar_alerts.foldl (fun acc sa =>
    match alLookup s.alert_to_group_mapping sa.alert_id with
    | some gid => alInsert acc gid ((alLookup acc gid).getD [] ++ [sa])
    | none => acc) []

/-- `AlertGrouper._is_higher_severity`. -/
def is_higher_severity (s1 s2 : SeverityLevel) : Bool :=
  severityRank s2 < severityRank s1

/-- The group object after the in-place field updates performed by
`AlertGrouper._add_alert_to_group` on the target group. -/
def updatedGroupForAdd (alert : Alert) (now : ℚ) (group : AlertGroup) : AlertGroup :=
  { group with
    alert_ids := group.alert_ids ++ [alert.id]
    alert_count := group.alert_count + 1
    last_alert_time := some alert.timestamp
    updated_at := now
    max_severity :=
      match group.max_severity with
      | none => some alert.severity
      | some m => if is_higher_severity alert.severity m then some alert.severity else some m
    severity_distribution :=
      alInsert group.severity_distribution (severityStr alert.severity)
        ((alLookup group.severity_distribution (severityStr alert.severity)).getD 0 + 1)
    affected_services :=
      match alert.service_name with
      | some sn => if sn ≠ "" ∧ sn ∉ group.affected_services then
                     group.affected_services ++ [sn]
                   else group.affected_services
      | none => group.affected_services
    affected_hosts :=
      match alert.host_name with
      | some hn => if hn ≠ "" ∧ hn ∉ group.affected_hosts then
                     group.affected_hosts ++ [hn]
                   else group.affected_hosts
      | none => group.affected_hosts
    affected_environments :=
      match alert.environment with
      | some env => if env ≠ "" ∧ env ∉ group.affected_environments then
                     group.affected_environments ++ [env]
                   else group.affected_environments
      | none => group.affected_environments
    duration_minutes :=
      match group.first_alert_time with
      | some ft => some ((alert.timestamp - ft) / 60)
      | none => group.duration_minutes }

/-- `AlertGrouper._add_alert_to_group`.  The Python method mutates the
group object held in `active_groups` and the mapping dict in place and also
writes `alert.group_id` on the caller's alert object; the state effects are
returned (the group object mutation is `alUpdate`).  Its `except` fallback
(log and return) is unreachable: the body is total. -/
def add_alert_to_group (alert : Alert) (group_id : String) (now : ℚ)
    (s : GrouperState) : GrouperState :=
  match alLookup s.active_groups group_id with
  | none => s
  | some group =>
    { active_groups := alUpdate s.active_groups group_id (updatedGroupForAdd alert now group)
      alert_to_group_mapping := alInsert s.alert_to_group_mapping alert.id group_id }

/-- Outcomes of the external-collaborator calls made during
`AlertGrouper.process_new_alert` / `_create_new_group`; each field is the
result of one call (`Except.error` = the call raised). -/
structure GrouperCollab where
  add_alert_res : Except String Unit
  find_similar_res : Except String (List SimilarAlert)
  gen_title_res : Except String String
  gen_desc_res : Except String String
  classify_res : Except String String
deriving Repr

/-- `vector_store.add_alert`: catches any exception and returns `False`;
its result is ignored by the grouper. -/
def vs_add_alert (c : GrouperCollab) : Bool :=
  match c.add_alert_res with
  | .ok _ => true
  | .error _ => false

/-- `vector_store.find_similar_alerts`: catches any exception and returns
the empty list; the threshold/limit filtering is internal to the backend
and absorbed into the oracle's list. -/
def vs_find_similar (c : GrouperCollab) : List SimilarAlert :=
  match c.find_similar_res with
  | .ok l => l
  | .error _ => []

/-- `llm_service.classify_alert_category`: returns the stripped generated
category, or `"Other"` when the generation call raised. -/
def llm_classify (c : GrouperCollab) : String :=
  match c.classify_res with
  | .ok cat => cat.trim
  | .error _ => "Other"

/-- `AlertGrouper._generate_group_metadata`: templated title/description
when there are no similar alerts (or no LLM, which the model takes as
present); generated-and-truncated on success; truncated templated fallback
when either generation call raises. -/
def generate_group_metadata (c : GrouperCollab) (alert : Alert)
    (similar_alerts : List SimilarAlert) : String × String :=
  if similar_alerts = [] then
    ("Alert Group - " ++ alert.title, "Group containing alerts similar to: " ++ alert.title)
  else
    match c.gen_title_res, c.gen_desc_res with
    | .ok title, .ok description => (title.trim.take 60, description.trim.take 200)
    | _, _ =>
      (("Alert Group - " ++ alert.title).take 60,
       ("Group containing alerts similar to: " ++ alert.title).take 200)

/-- `AlertGrouper._determine_group_priority`. -/
def determine_group_priority : SeverityLevel → GroupPriority
  | .CRITICAL => .CRITICAL
  | .HIGH => .HIGH
  | .MEDIUM => .MEDIUM
  | .LOW => .LOW
  | .INFO => .LOW

/-- The fresh group record built by `AlertGrouper._create_new_group`. -/
def newGroupRecord (c : GrouperCollab) (alert : Alert)
    (similar_alerts : List SimilarAlert) (group_id : String) (now : ℚ) : AlertGroup :=
  let meta := generate_group_metadata c alert similar_alerts
  { id := group_id
    title := meta.1
    description := meta.2
    priority := determine_group_priority alert.severity
    status := GroupStatus.ACTIVE
    similarity_threshold := SIMILARITY_THRESHOLD
    root_cause_hypothesis := none
    tags := alert.tags
    category := some (llm_classify c)
    created_at := now
    updated_at := now
    alert_count := 1
    alert_ids := [alert.id]
    max_severity := some alert.severity
    severity_distribution := [(severityStr alert.severity, 1)]
    first_alert_time := some alert.timestamp
    last_alert_time := some alert.timestamp
    duration_minutes := some 0
    rca_status := RCAStatus.PENDING
    rca_content := none
    rca_confidence := none
    rca_generated_at := none
    affected_services :=
      match alert.service_name with
      | some sn => if sn = "" then [] else [sn]
      | none => []
    affected_hosts :=
      match alert.host_name with
      | some hn => if hn = "" then [] else [hn]
      | none => []
    affected_environments :=
      match alert.environment with
      | some env => if env = "" then [] else [env]
      | none => []
    resolved_at := none
    resolution_notes := none
    assigned_to := none }

/-- `AlertGrouper._create_new_group`.  `group_id` stands for the fresh
`uuid.uuid4()`.  The `except` fallback (return a bare uuid without storing
a group) is unreachable in the model: every collaborator failure is caught
by the inner wrappers (`generate_group_metadata`, `llm_classify`). -/
def create_new_group (c : GrouperCollab) (alert : Alert)
    (similar_alerts : List SimilarAlert) (group_id : String) (now : ℚ)
    (s : GrouperState) : String × GrouperState :=
  (group_id,
   { active_groups := alInsert s.active_groups group_id
       (newGroupRecord c alert similar_alerts group_id now)
     alert_to_group_mapping := alInsert s.alert_to_group_mapping alert.id group_id })

/-- The create-a-new-group tail of `process_new_alert` (reached whenever no
existing group is committed to). -/
def fallbackCreate (c : GrouperCollab) (alert : Alert)
    (similar_alerts : List SimilarAlert) (new_group_id : String) (now : ℚ)
    (s : GrouperState) : Option String × GrouperState :=
  (some (create_new_group c alert similar_alerts new_group_id now s).1,
   (create_new_group c alert similar_alerts new_group_id now s).2)

/-- `AlertGrouper.process_new_alert`.  The top-level `except` (return
`None`) is unreachable for collaborator failures, which are all caught by
the wrappers; `if target_group_id:` is Python truthiness, so an empty-string
group id also falls through to group creation. -/
def process_new_alert (c : GrouperCollab) (alert : Alert) (new_group_id : String)
    (now : ℚ) (s : GrouperState) : Option String × GrouperState :=
  let _registered := vs_add_alert c
  let similar_alerts := vs_find_similar c
  if similar_alerts = [] then fallbackCreate c alert similar_alerts new_group_id now s
  else
    let candidate_groups := find_candidate_groups similar_alerts s
    if candidate_groups = [] then fallbackCreate c alert similar_alerts new_group_id now s
    else
      match select_best_group alert candidate_groups s with
      | some target_group_id =>
        if target_group_id = "" then fallbackCreate c alert similar_alerts new_group_id now s
        else (some target_group_id, add_alert_to_group alert target_group_id now s)
      | none => fallbackCreate c alert similar_alerts new_group_id now s

/-- `AlertGrouper.update_group_status`. -/
def update_group_status (group_id : String) (status : GroupStatus) (now : ℚ)
    (s : GrouperState) : Bool × GrouperState :=
  match alLookup s.active_groups group_id with
  | none => (false, s)
  | some group =>
    let g := { group with
      status := status
      updated_at := now
      resolved_at := if status = GroupStatus.RESOLVED then some now else group.resolved_at }
    (true, { s with active_groups := alUpdate s.active_groups group_id g })

/-- The target-group object after merging in one source group's fields
(`merge_groups` loop body field updates). -/
def mergedTargetRecord (tg source_group : AlertGroup) : AlertGroup :=
  { tg with
    alert_ids := tg.alert_ids ++ source_group.alert_ids
    alert_count := tg.alert_count + source_group.alert_count
    affected_services := tg.affected_services ++
      source_group.affected_services.filter (fun x => x ∉ tg.affected_services)
    affected_hosts := tg.affected_hosts ++
      source_group.affected_hosts.filter (fun x => x ∉ tg.affected_hosts)
    affected_environments := tg.affected_environments ++
      source_group.affected_environments.filter (fun x => x ∉ tg.affected_environments)
    severity_distribution :=
      source_group.severity_distribution.foldl
        (fun d p => alInsert d p.1 ((alLookup d p.1).getD 0 + p.2))
        tg.severity_distribution }

/-- One iteration of the source loop in `AlertGrouper.merge_groups`.  The
accumulator carries the Python reference to the target-group object
(`target_group`) alongside the state: mutations through it are mirrored
into `active_groups` by `alUpdate` (a no-op if the entry was deleted,
matching a dangling reference). -/
def mergeStep (target_group_id : String) (acc : AlertGroup × GrouperState)
    (source_group_id : String) : AlertGroup × GrouperState :=
  match alLookup acc.2.active_groups source_group_id with
  | none => acc
  | some source_group =>
    let tg1 := mergedTargetRecord acc.1 source_group
    { fst := tg1
      snd :=
        { active_groups := alErase (alUpdate acc.2.active_groups target_group_id tg1)
            source_group_id
          alert_to_group_mapping := source_group.alert_ids.foldl
            (fun m a => alInsert m a target_group_id) acc.2.alert_to_group_mapping } }

/-- `AlertGrouper.merge_groups`: fails only when the target is absent;
absent sources are silently skipped; the target object is mutated through
a single reference taken before the loop. -/
def merge_groups (source_group_ids : List String) (target_group_id : String)
    (now : ℚ) (s : GrouperState) : Bool × GrouperState :=
  match alLookup s.active_groups target_group_id with
  | none => (false, s)
  | some target_group =>
    let r := source_group_ids.foldl (mergeStep target_group_id) (target_group, s)
    (true,
     { r.2 with active_groups :=
         alUpdate r.2.active_groups target_group_id { r.1 with updated_at := now } })

/-- `config.py`: `RCA_KNOWLEDGE_BASE` is a long static reference text; its
exact content is immaterial to every claim, so a marker string stands in. -/
def RCA_KNOWLEDGE_BASE : String := "Common root causes for system alerts"

/-- Does `needle` occur at the head of `hay`? (char-list helper for
Python's `in` on strings). -/
def charsStartWith : List Char → List Char → Bool
  | [], _ => true
  | _ :: _, [] => false
  | a :: as, b :: bs => a = b && charsStartWith as bs

/-- Does `needle` occur anywhere in `hay`? -/
def charsContain (needle : List Char) : List Char → Bool
  | [] => charsStartWith needle []
  | b :: bs => charsStartWith needle (b :: bs) || charsContain needle bs

/-- Python `needle in hay` for strings. -/
def strContains (hay needle : String) : Bool :=
  charsContain needle.data hay.data

/-- Insert into an ascending list of rationals (helper for Python
`list.sort()` on timestamps). -/
def insortQ (x : ℚ) : List ℚ → List ℚ
  | [] => [x]
  | y :: ys => if x ≤ y then x :: y :: ys else y :: insortQ x ys

/-- Ascending sort of rationals: `timestamps.sort()`. -/
def sortQ (l : List ℚ) : List ℚ :=
  l.foldl (fun acc x => insortQ x acc) []

/-- Maximum gap between consecutive elements of an (ascending) timestamp
list; `0` when fewer than two elements (the Python code only evaluates it
for ≥ 2 alerts). -/
def maxGap : List ℚ → ℚ
  | a :: b :: rest => max (b - a) (maxGap (b :: rest))
  | _ => 0

/-- The `patterns` dict built by `RCAGenerator._analyze_alert_patterns`. -/
structure Patterns where
  services_affected : List (String × Nat)
  hosts_affected : List (String × Nat)
  error_keywords : List (String × Nat)
  temporal_pattern : String
  geographic_spread : List String
  severity_progression : List (ℚ × SeverityLevel)
deriving DecidableEq, Repr

/-- One entry of `context["timeline"]`. -/
structure TimelineEvent where
  timestamp : ℚ
  event : String
  severity : SeverityLevel
  source : String
deriving DecidableEq, Repr

/-- Insert into a timestamp-ascending timeline (Python sorts the timeline
by ISO timestamp string, which is chronological order). -/
def insortTimeline (x : TimelineEvent) : List TimelineEvent → List TimelineEvent
  | [] => [x]
  | y :: ys => if x.timestamp ≤ y.timestamp then x :: y :: ys else y :: insortTimeline x ys

/-- `context["timeline"].sort(key=lambda x: x["timestamp"])`. -/
def sortTimeline (l : List TimelineEvent) : List TimelineEvent :=
  l.foldl (fun acc x => insortTimeline x acc) []

/-- One raw result of `vector_store.db_manager.search_similar_alerts`:
similarity plus the metadata fields `_find_similar_incidents` reads. -/
structure SearchResult where
  alert_id : Option String
  service_name : Option String
  title : Option String
  similarity : ℚ
deriving DecidableEq, Repr

/-- One entry of `context["similar_incidents"]`. -/
structure Incident where
  incident_id : String
  alert_count : Nat
  max_similarity : ℚ
  common_service : String
  pattern : String
  sample_alerts : List SearchResult
deriving DecidableEq, Repr

/-- The per-bucket record accumulated in `incident_groups`. -/
structure IncidentBucket where
  alerts : List SearchResult
  max_similarity : ℚ
  common_service : String
  pattern : String
deriving DecidableEq, Repr

/-- Stable descending insertion by `max_similarity` (Python's stable
`list.sort(key=..., reverse=True)`). -/
def insortIncidentDesc (x : Incident) : List Incident → List Incident
  | [] => [x]
  | y :: ys => if x.max_similarity ≤ y.max_similarity then y :: insortIncidentDesc x ys
               else x :: y :: ys

/-- Descending stable sort of incidents by `max_similarity`. -/
def sortIncidentsDesc (l : List Incident) : List Incident :=
  l.foldl (fun acc x => insortIncidentDesc x acc) []

/-- Outcomes of the collaborator calls made during
`RCAGenerator.generate_rca`. -/
structure RCACollab where
  keywords_res : Except String (List String)
  embedding_res : Except String (List ℚ)
  search_res : Except String (List SearchResult)
  gen_rca_res : Except String String
deriving Repr

/-- `llm_service.extract_alert_keywords`: parsed keyword list capped at 10,
or `[]` when the call raised. -/
def llm_extract_keywords (c : RCACollab) : List String :=
  match c.keywords_res with
  | .ok l => l.take 10
  | .error _ => []

/-- `RCAGenerator._analyze_alert_patterns` (its `except` fallback returning
`{}` is unreachable: the body is total once the keyword wrapper has caught
its own failures). -/
def analyze_alert_patterns (c : RCACollab) (alerts : List Alert) : Patterns :=
  let base : Patterns :=
    alerts.foldl (fun p a =>
      { p with
        services_affected :=
          match a.service_name with
          | some sn => if sn = "" then p.services_affected
              else alInsert p.services_affected sn
                ((alLookup p.services_affected sn).getD 0 + 1)
          | none => p.services_affected
        hosts_affected :=
          match a.host_name with
          | some hn => if hn = "" then p.hosts_affected
              else alInsert p.hosts_affected hn
                ((alLookup p.hosts_affected hn).getD 0 + 1)
          | none => p.hosts_affected
        severity_progression := p.severity_progression ++ [(a.timestamp, a.severity)] })
      { services_affected := [], hosts_affected := [], error_keywords := []
        temporal_pattern := "sequential", geographic_spread := []
        severity_progression := [] }
  let withKeywords :=
    { base with error_keywords :=
        (llm_extract_keywords c).foldl (fun d kw => alInsert d kw 1) [] }
  if 1 < alerts.length then
    let timestamps := sortQ (alerts.map Alert.timestamp)
    let max_gap := maxGap timestamps
    { withKeywords with temporal_pattern :=
        if max_gap < 300 then "simultaneous"
        else if max_gap < 1800 then "cascading"
        else "sequential" }
  else withKeywords

/-- `RCAGenerator._find_similar_incidents`: embeds the group text, searches
the backend, buckets non-member results by service + title-prefix, and
returns the top 5 buckets by max similarity; `[]` when either collaborator
call raised (caught by its own `except`). -/
def find_similar_incidents (c : RCACollab) (group : AlertGroup) : List Incident :=
  match c.embedding_res with
  | .error _ => []
  | .ok _ =>
    match c.search_res with
    | .error _ => []
    | .ok results =>
      let buckets : List (String × IncidentBucket) :=
        results.foldl (fun bs r =>
          match r.alert_id with
          | some aid =>
            if aid ∈ group.alert_ids then bs
            else
              let service_key := r.service_name.getD "unknown"
              let title_key := (r.title.getD "").take 50
              let group_key := service_key ++ "_" ++ title_key
              match alLookup bs group_key with
              | none => alInsert bs group_key
                  { alerts := [r], max_similarity := max 0 r.similarity
                    common_service := service_key, pattern := title_key }
              | some b => alInsert bs group_key
                  { b with alerts := b.alerts ++ [r]
                           max_similarity := max b.max_similarity r.similarity }
          | none =>
            let service_key := r.service_name.getD "unknown"
            let title_key := (r.title.getD "").take 50
            let group_key := service_key ++ "_" ++ title_key
            match alLookup bs group_key with
            | none => alInsert bs group_key
                { alerts := [r], max_similarity := max 0 r.similarity
                  common_service := service_key, pattern := title_key }
            | some b => alInsert bs group_key
                { b with alerts := b.alerts ++ [r]
                         max_similarity := max b.max_similarity r.similarity }) []
      let incidents : List Incident :=
        buckets.foldl (fun acc p =>
          if 1 ≤ p.2.alerts.length then
            acc ++ [{ incident_id := p.1, alert_count := p.2.alerts.length
                      max_similarity := p.2.max_similarity
                      common_service := p.2.common_service, pattern := p.2.pattern
                      sample_alerts := p.2.alerts.take 3 }]
          else acc) []
      (sortIncidentsDesc incidents).take 5

/-- The `context` dict built by `RCAGenerator._gather_rca_context`
(`group_info` and the per-alert dicts are carried as the structures they
project; its `except` fallback to an error dict is unreachable: the body
is total). -/
structure RCAContext where
  group_info : AlertGroup
  alerts : List Alert
  timeline : List TimelineEvent
  patterns : Patterns
  similar_incidents : List Incident
  knowledge_base : String
deriving DecidableEq, Repr

/-- `RCAGenerator._gather_rca_context`. -/
def gather_rca_context (c : RCACollab) (group : AlertGroup) (alerts : List Alert) :
    RCAContext :=
  { group_info := group
    alerts := alerts
    timeline := sortTimeline (alerts.map fun a =>
      { timestamp := a.timestamp, event := "Alert: " ++ a.title
        severity := a.severity, source := a.source_system })
    patterns := analyze_alert_patterns c alerts
    similar_incidents := find_similar_incidents c group
    knowledge_base := RCA_KNOWLEDGE_BASE }

/-- `RCAGenerator._generate_rca_content`: the prompt built by
`_build_rca_prompt` feeds the generation collaborator, whose outcome the
oracle carries; a failure of that call is caught HERE and replaced by the
templated error string (it does not raise to `generate_rca`). -/
def generate_rca_content (c : RCACollab) (_context : RCAContext) : String :=
  match c.gen_rca_res with
  | .ok text => text.trim
  | .error e => "RCA generation failed due to technical error: " ++ e

/-- `RCAGenerator._calculate_rca_confidence`. -/
def calculate_rca_confidence (context : RCAContext) (rca_content : String) : ℚ :=
  let f1 : ℚ :=
    if 5 ≤ context.alerts.length then 9/10
    else if 3 ≤ context.alerts.length then 7/10
    else if 1 ≤ context.alerts.length then 1/2
    else 1/5
  let f2 : ℚ :=
    if context.patterns.services_affected ≠ [] ∧ context.patterns.temporal_pattern ≠ ""
    then 8/10 else 2/5
  let f3 : ℚ :=
    match context.similar_incidents with
    | [] => 3/10
    | i :: rest => (rest.map Incident.max_similarity).foldl max i.max_similarity
  let f4 : ℚ :=
    if 1000 < rca_content.length ∧ strContains rca_content "Root Cause" = true then 8/10
    else if 500 < rca_content.length then 6/10
    else 4/10
  min 1 (max 0 ((f1 + f2 + f3 + f4) / 4))

/-- The result dict returned by `RCAGenerator.generate_rca`. -/
structure RCAResult where
  success : Bool
  message : String
  rca_content : Option String
  confidence : Option ℚ
  generated_at : Option ℚ
deriving DecidableEq, Repr

/-- Python truthiness of an optional string (`if group.rca_content ...`). -/
def strOptTruthy : Option String → Bool
  | some t => t != ""
  | none => false

/-- `RCAGenerator.generate_rca`.  Its `except` branch (set status `FAILED`,
return a failure dict) only fires for exceptions that reach this frame; all
collaborator failures are caught earlier (`_gather_rca_context`,
`_generate_rca_content`, `_calculate_rca_confidence` each catch their own),
so the model's flow is the non-raising one. -/
def generate_rca (c : RCACollab) (group : AlertGroup) (alerts : List Alert)
    (force_regenerate : Bool) (now : ℚ) : RCAResult × AlertGroup :=
  if strOptTruthy group.rca_content && !force_regenerate then
    ({ success := true, message := "RCA already exists"
       rca_content := group.rca_content, confidence := group.rca_confidence
       generated_at := group.rca_generated_at }, group)
  else
    let group1 := { group with rca_status := RCAStatus.IN_PROGRESS }
    let context := gather_rca_context c group1 alerts
    let rca_content := generate_rca_content c context
    let confidence := calculate_rca_confidence context rca_content
    let group2 :=
      { group1 with
        rca_content := some rca_content
        rca_confidence := some confidence
        rca_status := RCAStatus.COMPLETED
        rca_generated_at := some now
        updated_at := now }
    ({ success := true, message := "RCA generated successfully"
       rca_content := some rca_content, confidence := some confidence
       generated_at := some now }, group2)

/-! Concrete objects used by witnesses and counterexamples. -/

/-- A baseline concrete alert. -/
def alert0 : Alert :=
  { id := "a1", title := "cpu high", description := "cpu over 90", severity := .CRITICAL
    source_system := "Prometheus", timestamp := 0, service_name := some "svc"
    host_name := none, environment := some "prod", tags := [], metrics := []
    status := .OPEN, created_at := 0, updated_at := 0, group_id := none
    similarity_score := none, processed := false, embedding_generated := false }

/-- A baseline concrete group holding alert `"a0"`. -/
def group0 : AlertGroup :=
  { id := "g1", title := "G", description := "D", priority := .HIGH
    status := .ACTIVE, similarity_threshold := 8/10, root_cause_hypothesis := none
    tags := [], category := none, created_at := 0, updated_at := 0, alert_count := 1
    alert_ids := ["a0"], max_severity := some .CRITICAL
    severity_distribution := [("SeverityLevel.CRITICAL", 1)], first_alert_time := some 0
    last_alert_time := none, duration_minutes := some 0, rca_status := .PENDING
    rca_content := none, rca_confidence := none, rca_generated_at := none
    affected_services := ["svc"], affected_hosts := [], affected_environments := ["prod"]
    resolved_at := none, resolution_notes := none, assigned_to := none }

/-- A baseline engine state: one group `"g1"` containing alert `"a0"`. -/
def state0 : GrouperState :=
  { active_groups := [("g1", group0)], alert_to_group_mapping := [("a0", "g1")] }

/-- A neighbor record with perfect similarity to alert `"a0"`. -/
def sim0 : SimilarAlert := { alert_id := "a0", similarity := 1, title := none }

/-! Association-list lemmas. -/

theorem alLookup_alInsert_self {α : Type} (m : List (String × α)) (k : String) (v : α) :
    alLookup (alInsert m k v) k = some v := by
  induction m with
  | nil => simp [alInsert, alLookup]
  | cons p rest ih =>
    by_cases h : p.1 = k
    · simp [alInsert, h, alLookup]
    · simp [alInsert, h, alLookup, ih]

theorem alLookup_alInsert_ne {α : Type} (m : List (String × α)) (k k' : String) (v : α)
    (h : k' ≠ k) : alLookup (alInsert m k v) k' = alLookup m k' := by
  have hk : ¬(k = k') := fun hh => h hh.symm
  induction m with
  | nil => simp [alInsert, alLookup, hk]
  | cons p rest ih =>
    by_cases hp : p.1 = k
    · simp [alInsert, hp, alLookup, hk]
    · by_cases hp' : p.1 = k'
      · simp [alInsert, hp, alLookup, hp', h]
      · simp [alInsert, hp, alLookup, hp', ih]

theorem alLookup_alUpdate_self {α : Type} (m : List (String × α)) (k : String) (v : α) :
    alLookup (alUpdate m k v) k = (alLookup m k).map (fun _ => v) := by
  induction m with
  | nil => simp [alUpdate, alLookup]
  | cons p rest ih =>
    by_cases h : p.1 = k
    · simp [alUpdate, h, alLookup]
    · simp [alUpdate, h, alLookup, ih]

theorem alLookup_alUpdate_ne {α : Type} (m : List (String × α)) (k k' : String) (v : α)
    (h : k' ≠ k) : alLookup (alUpdate m k v) k' = alLookup m k' := by
  have hk : ¬(k = k') := fun hh => h hh.symm
  induction m with
  | nil => simp [alUpdate, alLookup]
  | cons p rest ih =>
    by_cases hp : p.1 = k
    · simp [alUpdate, hp, alLookup, hk, ih]
    · by_cases hp' : p.1 = k'
      · simp [alUpdate, hp, alLookup, hp', h]
      · simp [alUpdate, hp, alLookup, hp', ih]

theorem alLookup_alErase_self {α : Type} (m : List (String × α)) (k : String) :
    alLookup (alErase m k) k = none := by
  induction m with
  | nil => simp [alErase, alLookup]
  | cons p rest ih =>
    by_cases h : p.1 = k
    · simpa [alErase, h, alLookup] using ih
    · simpa [alErase, h, alLookup] using ih

theorem alLookup_alErase_ne {α : Type} (m : List (String × α)) (k k' : String)
    (h : k' ≠ k) : alLookup (alErase m k) k' = alLookup m k' := by
  have hk : ¬(k = k') := fun hh => h hh.symm
  induction m with
  | nil => simp [alErase, alLookup]
  | cons p rest ih =>
    by_cases hp : p.1 = k
    · simp [alErase, hp, alLookup, hk, ih]
    · by_cases hp' : p.1 = k'
      · simp [alErase, hp, alLookup, hp', h]
      · simp [alErase, hp, alLookup, hp', ih]

theorem alLookup_foldl_alInsert_not_mem {α : Type} (ids : List String) (v : α)
    (m : List (String × α)) (a : String) (ha : a ∉ ids) :
    alLookup (ids.foldl (fun acc x => alInsert acc x v) m) a = alLookup m a := by
  induction ids generalizing m with
  | nil => rfl
  | cons x xs ih =>
    have hax : a ≠ x := fun hh => ha (hh ▸ List.mem_cons_self x xs)
    have haxs : a ∉ xs := fun hh => ha (List.mem_cons_of_mem x hh)
    simp only [List.foldl_cons]
    rw [ih _ haxs, alLookup_alInsert_ne _ _ _ _ hax]

theorem alLookup_foldl_alInsert_mem {α : Type} (ids : List String) (v : α)
    (m : List (String × α)) (a : String) (ha : a ∈ ids) :
    alLookup (ids.foldl (fun acc x => alInsert acc x v) m) a = some v := by
  induction ids generalizing m with
  | nil => cases ha
  | cons x xs ih =>
    simp only [List.foldl_cons]
    by_cases hxs : a ∈ xs
    · exact ih _ hxs
    · have hax : a = x := by
        rcases List.mem_cons.mp ha with h | h
        · exact h
        · exact absurd h hxs
      rw [alLookup_foldl_alInsert_not_mem _ _ _ _ hxs, hax, alLookup_alInsert_self]

/-! C1: capacity and lifecycle are respected during group selection. -/

/-- Soundness of the candidate scan in `_select_best_group`: any group id
held by the accumulator refers to an existing, not-full, not-Resolved,
not-Closed group. -/
theorem select_fold_sound (alert : Alert) (s : GrouperState)
    (cands : List (String × List SimilarAlert)) (acc : Option String × ℚ)
    (hacc : ∀ gid, acc.1 = some gid →
      ∃ g, alLookup s.active_groups gid = some g ∧ g.alert_count < MAX_GROUP_SIZE ∧
        g.status ≠ GroupStatus.RESOLVED ∧ g.status ≠ GroupStatus.CLOSED) :
    ∀ gid, (cands.foldl (selectStep alert s) acc).1 = some gid →
      ∃ g, alLookup s.active_groups gid = some g ∧ g.alert_count < MAX_GROUP_SIZE ∧
        g.status ≠ GroupStatus.RESOLVED ∧ g.status ≠ GroupStatus.CLOSED := by
  induction cands generalizing acc with
  | nil => exact hacc
  | cons cand cs ih =>
    simp only [List.foldl_cons]
    apply ih
    intro gid h
    unfold selectStep at h
    split at h
    · exact hacc gid h
    · next group hg =>
      split at h
      · exact hacc gid h
      · next hcap =>
        split at h
        · exact hacc gid h
        · next hstat =>
          dsimp only at h
          split at h
          · simp only at h
            cases h
            refine ⟨group, hg, Nat.lt_of_not_le hcap, ?_, ?_⟩
            · intro hr; exact hstat (Or.inl hr)
            · intro hc; exact hstat (Or.inr hc)
          · exact hacc gid h

/-- Soundness of `_select_best_group`: a returned group id names an
existing group below capacity and not Resolved/Closed. -/
theorem select_best_group_sound (alert : Alert)
    (cands : List (String × List SimilarAlert)) (s : GrouperState) (gid : String)
    (h : select_best_group alert cands s = some gid) :
    ∃ g, alLookup s.active_groups gid = some g ∧ g.alert_count < MAX_GROUP_SIZE ∧
      g.status ≠ GroupStatus.RESOLVED ∧ g.status ≠ GroupStatus.CLOSED := by
  unfold select_best_group at h
  dsimp only at h
  split_ifs at h with hthr
  exact select_fold_sound alert s cands (none, 0) (by intro gid h'; cases h') gid h

/-- C1: `_select_best_group` never returns a group that is missing from the
index, at or above `MAX_GROUP_SIZE` (default 50), or in Resolved/Closed
status — such candidates are skipped. -/
theorem C1_capacity_respected (alert : Alert)
    (cands : List (String × List SimilarAlert)) (s : GrouperState) (gid : String)
    (h : select_best_group alert cands s = some gid) :
    ∃ g, alLookup s.active_groups gid = some g ∧ g.alert_count < MAX_GROUP_SIZE ∧
      g.status ≠ GroupStatus.RESOLVED ∧ g.status ≠ GroupStatus.CLOSED :=
  select_best_group_sound alert cands s gid h

/-- C1 witness: a concrete selection that returns group `"g1"`. -/
theorem C1_capacity_respected_witness :
    ∃ g, alLookup state0.active_groups "g1" = some g ∧ g.alert_count < MAX_GROUP_SIZE ∧
      g.status ≠ GroupStatus.RESOLVED ∧ g.status ≠ GroupStatus.CLOSED :=
  C1_capacity_respected alert0 [("g1", [sim0])] state0 "g1" (by
    simp [select_best_group, selectStep, state0, alLookup, group0, MAX_GROUP_SIZE,
      SIMILARITY_THRESHOLD, calculate_group_compatibility, calculate_time_proximity_factor,
      calculate_service_affinity_factor, calculate_severity_compatibility_factor,
      calculate_environment_factor, alert0, sim0, severityRank, severityRankOpt]
    norm_num)

/-! C3: the time-decay profile of the time-proximity factor. -/

/-- C3 counterexample: the claim says the factor is exactly 0.1 for every
Δt ≥ 86400 s, but at Δt = 86400 s the code's linear branch still applies
and yields 0. -/
theorem C3_time_decay_counterexample :
    calculate_time_proximity_factor { alert0 with timestamp := 86400 }
      { group0 with last_alert_time := some 0 } = 0 ∧ (0 : ℚ) ≠ 1/10 := by
  constructor
  · simp [calculate_time_proximity_factor, alert0, group0]
    norm_num
  · norm_num

/-- C3 amended: with `last_alert_time` present and Δt the absolute time
difference, the factor is 1 at Δt = 0 and Δt = 3600, strictly between 0 and
1 (not necessarily above 0.1) for 3600 < Δt < 86400, exactly 0 at
Δt = 86400, and exactly 0.1 only for Δt > 86400. -/
theorem C3_time_decay (alert : Alert) (group : AlertGroup) (t : ℚ)
    (h : group.last_alert_time = some t) :
    (|alert.timestamp - t| = 0 → calculate_time_proximity_factor alert group = 1) ∧
    (|alert.timestamp - t| = 3600 → calculate_time_proximity_factor alert group = 1) ∧
    (3600 < |alert.timestamp - t| → |alert.timestamp - t| < 86400 →
      0 < calculate_time_proximity_factor alert group ∧
      calculate_time_proximity_factor alert group < 1) ∧
    (|alert.timestamp - t| = 86400 → calculate_time_proximity_factor alert group = 0) ∧
    (86400 < |alert.timestamp - t| → calculate_time_proximity_factor alert group = 1/10) := by
  have e : calculate_time_proximity_factor alert group =
      (if |alert.timestamp - t| ≤ 3600 then 1
       else if |alert.timestamp - t| ≤ 86400 then
         1 - (|alert.timestamp - t| - 3600) / (86400 - 3600)
       else 1/10) := by
    unfold calculate_time_proximity_factor
    rw [h]
  refine ⟨?_, ?_, ?_, ?_, ?_⟩
  · intro h0
    rw [e, h0]
    norm_num
  · intro h0
    rw [e, h0]
    norm_num
  · intro h1 h2
    rw [e, if_neg (not_le.mpr h1), if_pos (le_of_lt h2)]
    constructor
    · have hx : (|alert.timestamp - t| - 3600) / (86400 - 3600) < 1 := by
        rw [div_lt_one (by norm_num)]
        linarith
      linarith
    · have hx : 0 < (|alert.timestamp - t| - 3600) / (86400 - 3600) := by
        apply div_pos <;> [linarith; norm_num]
      linarith
  · intro h0
    rw [e, h0]
    norm_num
  · intro h1
    rw [e, if_neg (by linarith), if_neg (not_le.mpr h1)]

/-- C3 witness: the amended profile at Δt = 0, Δt = 7200 and Δt = 100000. -/
theorem C3_time_decay_witness :
    calculate_time_proximity_factor alert0 { group0 with last_alert_time := some 0 } = 1 ∧
    (0 < calculate_time_proximity_factor { alert0 with timestamp := 7200 }
        { group0 with last_alert_time := some 0 } ∧
      calculate_time_proximity_factor { alert0 with timestamp := 7200 }
        { group0 with last_alert_time := some 0 } < 1) ∧
    calculate_time_proximity_factor { alert0 with timestamp := 100000 }
      { group0 with last_alert_time := some 0 } = 1/10 := by
  refine ⟨?_, ?_, ?_⟩
  · exact (C3_time_decay alert0 _ 0 rfl).1 (by show |(0 : ℚ) - 0| = 0; norm_num)
  · exact (C3_time_decay _ _ 0 rfl).2.2.1
      (by show (3600 : ℚ) < |(7200 : ℚ) - 0|; rw [abs_of_nonneg] <;> norm_num)
      (by show |(7200 : ℚ) - 0| < 86400; rw [abs_of_nonneg] <;> norm_num)
  · exact (C3_time_decay _ _ 0 rfl).2.2.2.2
      (by show (86400 : ℚ) < |(100000 : ℚ) - 0|; rw [abs_of_nonneg] <;> norm_num)

/-! C6: compatibility scoring is total, clamped, and neutral on missing data. -/

/-- C6: the compatibility score (a total function in this embedding: no
factor computation can raise) is clamped to [0,1], and an alert with no
environment gets the neutral 0.5 environment factor. -/
theorem C6_score_clamped (alert : Alert) (group : AlertGroup)
    (sims : List SimilarAlert) :
    (0 ≤ calculate_group_compatibility alert group sims ∧
      calculate_group_compatibility alert group sims ≤ 1) ∧
    (alert.environment = none → calculate_environment_factor alert group = 1/2) := by
  refine ⟨⟨?_, ?_⟩, ?_⟩
  · exact le_min (by norm_num) (le_max_left _ _)
  · exact min_le_left _ _
  · intro h
    unfold calculate_environment_factor
    rw [h]

/-- C6 witness: the clamp and the neutral environment default at a concrete
alert with no environment. -/
theorem C6_score_clamped_witness :
    (0 ≤ calculate_group_compatibility { alert0 with environment := none } group0 [] ∧
      calculate_group_compatibility { alert0 with environment := none } group0 [] ≤ 1) ∧
    calculate_environment_factor { alert0 with environment := none } group0 = 1/2 :=
  ⟨(C6_score_clamped { alert0 with environment := none } group0 []).1,
   (C6_score_clamped { alert0 with environment := none } group0 []).2 rfl⟩

/-! C10: `_add_alert_to_group` rewinds `last_alert_time` and can produce a
negative duration. -/

/-- C10: adding an alert always overwrites `last_alert_time` with the
alert's timestamp, and when that timestamp precedes the group's
`first_alert_time` the recomputed `duration_minutes` is negative. -/
theorem C10_backdated_alert :
    (∀ (alert : Alert) (gid : String) (now : ℚ) (s : GrouperState) (group : AlertGroup),
      alLookup s.active_groups gid = some group →
      ∃ g', alLookup (add_alert_to_group alert gid now s).active_groups gid = some g' ∧
        g'.last_alert_time = some alert.timestamp) ∧
    (∀ (alert : Alert) (gid : String) (now : ℚ) (s : GrouperState) (group : AlertGroup)
      (t0 : ℚ), alLookup s.active_groups gid = some group →
      group.first_alert_time = some t0 → alert.timestamp < t0 →
      ∃ g' d, alLookup (add_alert_to_group alert gid now s).active_groups gid = some g' ∧
        g'.duration_minutes = some d ∧ d < 0) := by
  constructor
  · intro alert gid now s group h
    unfold add_alert_to_group
    rw [h]
    dsimp only
    rw [alLookup_alUpdate_self, h]
    exact ⟨_, rfl, rfl⟩
  · intro alert gid now s group t0 h hft hlt
    unfold add_alert_to_group
    rw [h]
    dsimp only
    rw [alLookup_alUpdate_self, h]
    refine ⟨_, (alert.timestamp - t0) / 60, rfl, ?_, ?_⟩
    · simp only [updatedGroupForAdd, hft]
    · apply div_neg_of_neg_of_pos
      · linarith
      · norm_num

/-- C10 witness: a concrete backdated alert (timestamp −60 against a group
whose first alert is at 0) yields duration −1 minute. -/
theorem C10_backdated_alert_witness :
    (∃ g', alLookup (add_alert_to_group { alert0 with timestamp := -60 } "g1" 0
        state0).active_groups "g1" = some g' ∧
      g'.last_alert_time = some ((-60 : ℚ))) ∧
    (∃ g' d, alLookup (add_alert_to_group { alert0 with timestamp := -60 } "g1" 0
        state0).active_groups "g1" = some g' ∧
      g'.duration_minutes = some d ∧ d < 0) :=
  ⟨C10_backdated_alert.1 { alert0 with timestamp := -60 } "g1" 0 state0 group0 rfl,
   C10_backdated_alert.2 { alert0 with timestamp := -60 } "g1" 0 state0 group0 0 rfl rfl
     (by norm_num)⟩

/-! Equation lemmas for the stateful operations. -/

theorem add_alert_to_group_of_none (alert : Alert) (gid : String) (now : ℚ)
    (s : GrouperState) (h : alLookup s.active_groups gid = none) :
    add_alert_to_group alert gid now s = s := by
  unfold add_alert_to_group
  rw [h]

theorem add_alert_to_group_of_some (alert : Alert) (gid : String) (now : ℚ)
    (s : GrouperState) (group : AlertGroup)
    (h : alLookup s.active_groups gid = some group) :
    add_alert_to_group alert gid now s =
      { active_groups := alUpdate s.active_groups gid (updatedGroupForAdd alert now group)
        alert_to_group_mapping := alInsert s.alert_to_group_mapping alert.id gid } := by
  unfold add_alert_to_group
  rw [h]

theorem mergeStep_of_none (tgt : String) (acc : AlertGroup × GrouperState)
    (src : String) (h : alLookup acc.2.active_groups src = none) :
    mergeStep tgt acc src = acc := by
  unfold mergeStep
  rw [h]

theorem mergeStep_of_some (tgt : String) (acc : AlertGroup × GrouperState)
    (src : String) (sg : AlertGroup)
    (h : alLookup acc.2.active_groups src = some sg) :
    mergeStep tgt acc src =
      (mergedTargetRecord acc.1 sg,
       { active_groups :=
           alErase (alUpdate acc.2.active_groups tgt (mergedTargetRecord acc.1 sg)) src
         alert_to_group_mapping := sg.alert_ids.foldl
           (fun m a => alInsert m a tgt) acc.2.alert_to_group_mapping }) := by
  unfold mergeStep
  rw [h]

theorem merge_groups_of_none (srcs : List String) (tgt : String) (now : ℚ)
    (s : GrouperState) (h : alLookup s.active_groups tgt = none) :
    merge_groups srcs tgt now s = (false, s) := by
  unfold merge_groups
  rw [h]

theorem merge_groups_of_some (srcs : List String) (tgt : String) (now : ℚ)
    (s : GrouperState) (tg0 : AlertGroup)
    (h : alLookup s.active_groups tgt = some tg0) :
    merge_groups srcs tgt now s =
      (true,
       { active_groups :=
           alUpdate (srcs.foldl (mergeStep tgt) (tg0, s)).2.active_groups tgt
             { (srcs.foldl (mergeStep tgt) (tg0, s)).1 with updated_at := now }
         alert_to_group_mapping :=
           (srcs.foldl (mergeStep tgt) (tg0, s)).2.alert_to_group_mapping }) := by
  unfold merge_groups
  rw [h]

/-! C2: the count invariant. -/

/-- The count invariant: every group in the index has `alert_count` equal
to the length of its `alert_ids` list. -/
def CountInv (s : GrouperState) : Prop :=
  ∀ gid g, alLookup s.active_groups gid = some g → g.alert_count = g.alert_ids.length

/-- The merge source-loop preserves the count invariant, for the state and
for target-object accumulator alike. -/
theorem mergeFold_countInv (tgt : String) (srcs : List String) (tg : AlertGroup)
    (s : GrouperState) (hInv : CountInv s)
    (htg : tg.alert_count = tg.alert_ids.length) :
    CountInv (srcs.foldl (mergeStep tgt) (tg, s)).2 ∧
    (srcs.foldl (mergeStep tgt) (tg, s)).1.alert_count =
      (srcs.foldl (mergeStep tgt) (tg, s)).1.alert_ids.length := by
  induction srcs generalizing tg s with
  | nil => exact ⟨hInv, htg⟩
  | cons x xs ih =>
    simp only [List.foldl_cons]
    rcases hx : alLookup s.active_groups x with _ | sg
    · rw [mergeStep_of_none tgt (tg, s) x hx]
      exact ih tg s hInv htg
    · rw [mergeStep_of_some tgt (tg, s) x sg hx]
      apply ih
      · intro gid g hl
        dsimp only at hl
        by_cases ex : gid = x
        · subst ex
          rw [alLookup_alErase_self] at hl
          cases hl
        · rw [alLookup_alErase_ne _ _ _ ex] at hl
          by_cases et : gid = tgt
          · subst et
            rw [alLookup_alUpdate_self] at hl
            rcases hlu : alLookup s.active_groups gid with _ | z
            · rw [hlu] at hl
              cases hl
            · rw [hlu] at hl
              simp only [Option.map_some'] at hl
              cases hl
              simp [mergedTargetRecord, List.length_append, htg, hInv x sg hx]
          · rw [alLookup_alUpdate_ne _ _ _ _ et] at hl
            exact hInv _ _ hl
      · simp [mergedTargetRecord, List.length_append, htg, hInv x sg hx]

/-- C2: every engine operation (adding an alert to a group, creating a new
group, merging groups) preserves the invariant that each group's
`alert_count` equals the length of its `alert_ids` list. -/
theorem C2_count_invariant (s : GrouperState) (h : CountInv s) :
    (∀ (alert : Alert) (gid : String) (now : ℚ),
      CountInv (add_alert_to_group alert gid now s)) ∧
    (∀ (c : GrouperCollab) (alert : Alert) (sims : List SimilarAlert)
      (ngid : String) (now : ℚ),
      CountInv (create_new_group c alert sims ngid now s).2) ∧
    (∀ (srcs : List String) (tgt : String) (now : ℚ),
      CountInv (merge_groups srcs tgt now s).2) := by
  refine ⟨?_, ?_, ?_⟩
  · intro alert gid now
    rcases hg : alLookup s.active_groups gid with _ | group
    · rw [add_alert_to_group_of_none _ _ _ _ hg]
      exact h
    · rw [add_alert_to_group_of_some _ _ _ _ _ hg]
      intro gid' g' hl
      dsimp only at hl
      by_cases e : gid' = gid
      · subst e
        rw [alLookup_alUpdate_self, hg] at hl
        simp only [Option.map_some'] at hl
        cases hl
        simp [updatedGroupForAdd, List.length_append, h gid' group hg]
      · rw [alLookup_alUpdate_ne _ _ _ _ e] at hl
        exact h _ _ hl
  · intro c alert sims ngid now
    intro gid' g' hl
    dsimp only [create_new_group] at hl
    by_cases e : gid' = ngid
    · subst e
      rw [alLookup_alInsert_self] at hl
      cases hl
      rfl
    · rw [alLookup_alInsert_ne _ _ _ _ e] at hl
      exact h _ _ hl
  · intro srcs tgt now
    rcases ht : alLookup s.active_groups tgt with _ | tg0
    · rw [merge_groups_of_none _ _ _ _ ht]
      exact h
    · rw [merge_groups_of_some _ _ _ _ _ ht]
      have hfold := mergeFold_countInv tgt srcs tg0 s h (h tgt tg0 ht)
      intro gid' g' hl
      dsimp only at hl
      by_cases e : gid' = tgt
      · subst e
        rw [alLookup_alUpdate_self] at hl
        rcases hlu : alLookup (srcs.foldl (mergeStep gid') (tg0, s)).2.active_groups gid'
          with _ | z
        · rw [hlu] at hl
          cases hl
        · rw [hlu] at hl
          simp only [Option.map_some'] at hl
          cases hl
          exact hfold.2
      · rw [alLookup_alUpdate_ne _ _ _ _ e] at hl
        exact hfold.1 _ _ hl

/-- C2 witness: the invariant holds at `state0` and is preserved by each of
the three operations there. -/
theorem C2_count_invariant_witness :
    (∀ (alert : Alert) (gid : String) (now : ℚ),
      CountInv (add_alert_to_group alert gid now state0)) ∧
    (∀ (c : GrouperCollab) (alert : Alert) (sims : List SimilarAlert)
      (ngid : String) (now : ℚ),
      CountInv (create_new_group c alert sims ngid now state0).2) ∧
    (∀ (srcs : List String) (tgt : String) (now : ℚ),
      CountInv (merge_groups srcs tgt now state0).2) :=
  C2_count_invariant state0 (by
    intro gid g hl
    simp only [state0, alLookup] at hl
    split_ifs at hl
    cases hl
    rfl)

/-! C4: merge completeness. -/

/-- C4: merging two distinct existing source groups into a distinct
existing target reassigns every source alert's mapping to the target, sums
the three counts on the target, and removes both sources from the index. -/
theorem C4_merge_completeness (s : GrouperState) (s1 s2 t : String)
    (g1 g2 gt : AlertGroup) (now : ℚ)
    (h12 : s1 ≠ s2) (h1t : s1 ≠ t) (h2t : s2 ≠ t)
    (hg1 : alLookup s.active_groups s1 = some g1)
    (hg2 : alLookup s.active_groups s2 = some g2)
    (hgt : alLookup s.active_groups t = some gt) :
    (merge_groups [s1, s2] t now s).1 = true ∧
    (∀ a, a ∈ g1.alert_ids ∨ a ∈ g2.alert_ids →
      alLookup (merge_groups [s1, s2] t now s).2.alert_to_group_mapping a = some t) ∧
    (∃ gt', alLookup (merge_groups [s1, s2] t now s).2.active_groups t = some gt' ∧
      gt'.alert_count = gt.alert_count + g1.alert_count + g2.alert_count) ∧
    alLookup (merge_groups [s1, s2] t now s).2.active_groups s1 = none ∧
    alLookup (merge_groups [s1, s2] t now s).2.active_groups s2 = none := by
  rw [merge_groups_of_some [s1, s2] t now s gt hgt]
  simp only [List.foldl_cons, List.foldl_nil]
  rw [mergeStep_of_some t (gt, s) s1 g1 hg1]
  have hS1s2 : alLookup (alErase (alUpdate s.active_groups t (mergedTargetRecord gt g1))
      s1) s2 = some g2 := by
    rw [alLookup_alErase_ne _ _ _ (Ne.symm h12), alLookup_alUpdate_ne _ _ _ _ h2t]
    exact hg2
  rw [mergeStep_of_some t _ s2 g2 hS1s2]
  dsimp only
  have hT1 : alLookup (alErase (alUpdate s.active_groups t (mergedTargetRecord gt g1)) s1)
      t = some (mergedTargetRecord gt g1) := by
    rw [alLookup_alErase_ne _ _ _ (Ne.symm h1t), alLookup_alUpdate_self, hgt]
    rfl
  have hT2 : alLookup (alErase (alUpdate (alErase (alUpdate s.active_groups t
      (mergedTargetRecord gt g1)) s1) t (mergedTargetRecord (mergedTargetRecord gt g1) g2))
      s2) t = some (mergedTargetRecord (mergedTargetRecord gt g1) g2) := by
    rw [alLookup_alErase_ne _ _ _ (Ne.symm h2t), alLookup_alUpdate_self, hT1]
    rfl
  refine ⟨by trivial, ?_, ?_, ?_, ?_⟩
  · intro a ha
    by_cases ha2 : a ∈ g2.alert_ids
    · exact alLookup_foldl_alInsert_mem _ _ _ _ ha2
    · have ha1 : a ∈ g1.alert_ids := by
        rcases ha with h | h
        · exact h
        · exact absurd h ha2
      rw [alLookup_foldl_alInsert_not_mem _ _ _ _ ha2]
      exact alLookup_foldl_alInsert_mem _ _ _ _ ha1
  · rw [alLookup_alUpdate_self, hT2]
    simp only [Option.map_some']
    refine ⟨_, rfl, ?_⟩
    simp [mergedTargetRecord]
  · rw [alLookup_alUpdate_ne _ _ _ _ h1t, alLookup_alErase_ne _ _ _ h12,
      alLookup_alUpdate_ne _ _ _ _ h1t, alLookup_alErase_self]
  · rw [alLookup_alUpdate_ne _ _ _ _ h2t, alLookup_alErase_self]

/-- A three-group concrete state used by the merge witnesses: target
`"t1"` holds alert `"a0"`, sources `"sA"` and `"sB"` hold `"b1"` and
`"b2"`. -/
def mergeState : GrouperState :=
  { active_groups :=
      [("t1", { group0 with id := "t1" }),
       ("sA", { group0 with id := "sA", alert_ids := ["b1"] }),
       ("sB", { group0 with id := "sB", alert_ids := ["b2"] })]
    alert_to_group_mapping := [("a0", "t1"), ("b1", "sA"), ("b2", "sB")] }

/-- C4 witness: merging `["sA", "sB"]` into `"t1"` on the concrete state. -/
theorem C4_merge_completeness_witness :
    (merge_groups ["sA", "sB"] "t1" 5 mergeState).1 = true ∧
    (∀ a, a ∈ ({ group0 with id := "sA", alert_ids := ["b1"] } : AlertGroup).alert_ids ∨
        a ∈ ({ group0 with id := "sB", alert_ids := ["b2"] } : AlertGroup).alert_ids →
      alLookup (merge_groups ["sA", "sB"] "t1" 5 mergeState).2.alert_to_group_mapping a =
        some "t1") ∧
    (∃ gt', alLookup (merge_groups ["sA", "sB"] "t1" 5 mergeState).2.active_groups "t1" =
        some gt' ∧
      gt'.alert_count = ({ group0 with id := "t1" } : AlertGroup).alert_count +
        ({ group0 with id := "sA", alert_ids := ["b1"] } : AlertGroup).alert_count +
        ({ group0 with id := "sB", alert_ids := ["b2"] } : AlertGroup).alert_count) ∧
    alLookup (merge_groups ["sA", "sB"] "t1" 5 mergeState).2.active_groups "sA" = none ∧
    alLookup (merge_groups ["sA", "sB"] "t1" 5 mergeState).2.active_groups "sB" = none :=
  C4_merge_completeness mergeState "sA" "sB" "t1" _ _ _ 5
    (by decide) (by decide) (by decide)
    (by simp [mergeState, alLookup]) (by simp [mergeState, alLookup])
    (by simp [mergeState, alLookup])

/-! C5: bidirectional consistency. -/

/-- Bidirectional consistency: every mapped alert's group exists and lists
the alert exactly once, and every listed alert maps back to its group. -/
def BiConsistent (s : GrouperState) : Prop :=
  (∀ a gid, alLookup s.alert_to_group_mapping a = some gid →
    ∃ g, alLookup s.active_groups gid = some g ∧ g.alert_ids.count a = 1) ∧
  (∀ gid g, alLookup s.active_groups gid = some g →
    ∀ a, a ∈ g.alert_ids → alLookup s.alert_to_group_mapping a = some gid)

/-- The baseline state satisfies bidirectional consistency. -/
theorem biConsistent_state0 : BiConsistent state0 := by
  constructor
  · intro a gid hmap
    simp only [state0, alLookup] at hmap
    split_ifs at hmap with hc
    cases hmap
    refine ⟨group0, ?_, ?_⟩
    · simp [state0, alLookup]
    · subst hc
      decide
  · intro gid g hgl a ha
    simp only [state0, alLookup] at hgl
    split_ifs at hgl with hc
    cases hgl
    subst hc
    have : a = "a0" := by simpa [group0] using ha
    subst this
    simp [state0, alLookup]

/-- C5 counterexample: re-adding an alert that is already the sole member
of its own group duplicates it in `alert_ids`, so the "exactly once"
bidirectional invariant is NOT preserved by `_add_alert_to_group` on every
input, contrary to the claim. -/
theorem C5_bidirectional_counterexample :
    BiConsistent state0 ∧
    ¬ BiConsistent (add_alert_to_group { alert0 with id := "a0" } "g1" 0 state0) := by
  refine ⟨biConsistent_state0, ?_⟩
  have hlook : alLookup state0.active_groups "g1" = some group0 := by
    simp [state0, alLookup]
  have e := add_alert_to_group_of_some { alert0 with id := "a0" } "g1" 0 state0 group0 hlook
  intro hB
  have hmap : alLookup (add_alert_to_group { alert0 with id := "a0" } "g1" 0
      state0).alert_to_group_mapping "a0" = some "g1" := by
    rw [e]
    exact alLookup_alInsert_self _ _ _
  obtain ⟨g, hg, hcnt⟩ := hB.1 "a0" "g1" hmap
  rw [e] at hg
  dsimp only at hg
  rw [alLookup_alUpdate_self, hlook] at hg
  simp only [Option.map_some'] at hg
  cases hg
  rw [show (updatedGroupForAdd { alert0 with id := "a0" } 0 group0).alert_ids =
    ["a0", "a0"] from rfl] at hcnt
  exact absurd hcnt (by decide)

/-- The merge source-loop preserves bidirectional consistency and keeps the
target-object accumulator synchronized with the index entry, provided the
target is not among the sources. -/
theorem mergeFold_biConsistent (tgt : String) (srcs : List String) (tg : AlertGroup)
    (s : GrouperState) (hns : tgt ∉ srcs) (hB : BiConsistent s)
    (htg : alLookup s.active_groups tgt = some tg) :
    BiConsistent (srcs.foldl (mergeStep tgt) (tg, s)).2 ∧
    alLookup (srcs.foldl (mergeStep tgt) (tg, s)).2.active_groups tgt =
      some (srcs.foldl (mergeStep tgt) (tg, s)).1 := by
  induction srcs generalizing tg s with
  | nil => exact ⟨hB, htg⟩
  | cons x xs ih =>
    have htx : tgt ≠ x := fun e => hns (e ▸ List.mem_cons_self x xs)
    have hxs : tgt ∉ xs := fun e => hns (List.mem_cons_of_mem x e)
    simp only [List.foldl_cons]
    rcases hx : alLookup s.active_groups x with _ | sg
    · rw [mergeStep_of_none tgt (tg, s) x hx]
      exact ih _ _ hxs hB htg
    · rw [mergeStep_of_some tgt (tg, s) x sg hx]
      have hT1 : alLookup (alErase (alUpdate s.active_groups tgt
          (mergedTargetRecord tg sg)) x) tgt = some (mergedTargetRecord tg sg) := by
        rw [alLookup_alErase_ne _ _ _ htx, alLookup_alUpdate_self, htg]
        rfl
      apply ih _ _ hxs
      · constructor
        · intro a gid hmap
          dsimp only at hmap ⊢
          by_cases hain : a ∈ sg.alert_ids
          · rw [alLookup_foldl_alInsert_mem _ _ _ _ hain] at hmap
            cases hmap
            refine ⟨mergedTargetRecord tg sg, hT1, ?_⟩
            have hax : alLookup s.alert_to_group_mapping a = some x :=
              hB.2 x sg hx a hain
            obtain ⟨g', hg', hcnt'⟩ := hB.1 a x hax
            rw [hx] at hg'
            cases hg'
            have hnt : a ∉ tg.alert_ids := fun hmem => by
              have := hB.2 tgt tg htg a hmem
              rw [hax] at this
              exact htx (by cases this; rfl)
            rw [show (mergedTargetRecord tg sg).alert_ids =
              tg.alert_ids ++ sg.alert_ids from rfl, List.count_append,
              List.count_eq_zero.mpr hnt, hcnt']
          · rw [alLookup_foldl_alInsert_not_mem _ _ _ _ hain] at hmap
            obtain ⟨g, hgl, hcnt⟩ := hB.1 a gid hmap
            by_cases egx : gid = x
            · subst egx
              rw [hx] at hgl
              cases hgl
              exact absurd (List.count_pos_iff.mp (by rw [hcnt]; norm_num)) hain
            · by_cases egt : gid = tgt
              · subst egt
                rw [htg] at hgl
                cases hgl
                refine ⟨mergedTargetRecord tg sg, hT1, ?_⟩
                rw [show (mergedTargetRecord tg sg).alert_ids =
                  tg.alert_ids ++ sg.alert_ids from rfl, List.count_append,
                  List.count_eq_zero.mpr hain, hcnt]
              · refine ⟨g, ?_, hcnt⟩
                rw [alLookup_alErase_ne _ _ _ egx, alLookup_alUpdate_ne _ _ _ _ egt]
                exact hgl
        · intro gid g' hgl a ha
          dsimp only at hgl ⊢
          by_cases egx : gid = x
          · subst egx
            rw [alLookup_alErase_self] at hgl
            cases hgl
          · rw [alLookup_alErase_ne _ _ _ egx] at hgl
            by_cases egt : gid = tgt
            · subst egt
              rw [alLookup_alUpdate_self, htg] at hgl
              simp only [Option.map_some'] at hgl
              cases hgl
              rw [show (mergedTargetRecord tg sg).alert_ids =
                tg.alert_ids ++ sg.alert_ids from rfl] at ha
              rcases List.mem_append.mp ha with hmem | hmem
              · have hmt := hB.2 gid tg htg a hmem
                have hnotin : a ∉ sg.alert_ids := fun hmem2 => by
                  have hmx := hB.2 x sg hx a hmem2
                  rw [hmt] at hmx
                  exact htx (by cases hmx; rfl)
                rw [alLookup_foldl_alInsert_not_mem _ _ _ _ hnotin]
                exact hmt
              · exact alLookup_foldl_alInsert_mem _ _ _ _ hmem
            · rw [alLookup_alUpdate_ne _ _ _ _ egt] at hgl
              have hmapa := hB.2 gid g' hgl a ha
              have hnotin : a ∉ sg.alert_ids := fun hmem => by
                have hmx := hB.2 x sg hx a hmem
                rw [hmapa] at hmx
                exact egx (by cases hmx; rfl)
              rw [alLookup_foldl_alInsert_not_mem _ _ _ _ hnotin]
              exact hmapa
      · exact hT1

/-- C5 amended: bidirectional consistency (mapped group exists and lists
the alert exactly once) is preserved by `_add_alert_to_group` when the
alert is not already mapped, by `_create_new_group` when additionally the
new group id is fresh (as a uuid is), and by `merge_groups` when the target
is not among the sources; re-adding an already-member alert violates it
(see the counterexample). -/
theorem C5_bidirectional (s : GrouperState) (hB : BiConsistent s) :
    (∀ (alert : Alert) (gid : String) (now : ℚ),
      alLookup s.alert_to_group_mapping alert.id = none →
      BiConsistent (add_alert_to_group alert gid now s)) ∧
    (∀ (c : GrouperCollab) (alert : Alert) (sims : List SimilarAlert)
      (ngid : String) (now : ℚ),
      alLookup s.active_groups ngid = none →
      alLookup s.alert_to_group_mapping alert.id = none →
      BiConsistent (create_new_group c alert sims ngid now s).2) ∧
    (∀ (srcs : List String) (tgt : String) (now : ℚ),
      tgt ∉ srcs →
      BiConsistent (merge_groups srcs tgt now s).2) := by
  refine ⟨?_, ?_, ?_⟩
  · intro alert gid now hnone
    rcases hg : alLookup s.active_groups gid with _ | group
    · rw [add_alert_to_group_of_none _ _ _ _ hg]
      exact hB
    · rw [add_alert_to_group_of_some _ _ _ _ _ hg]
      have hnotin : alert.id ∉ group.alert_ids := fun hmem => by
        have := hB.2 gid group hg alert.id hmem
        rw [hnone] at this
        cases this
      constructor
      · intro a gid' hmap
        dsimp only at hmap ⊢
        by_cases ea : a = alert.id
        · subst ea
          rw [alLookup_alInsert_self] at hmap
          cases hmap
          refine ⟨updatedGroupForAdd alert now group, ?_, ?_⟩
          · rw [alLookup_alUpdate_self, hg]
            rfl
          · rw [show (updatedGroupForAdd alert now group).alert_ids =
              group.alert_ids ++ [alert.id] from rfl, List.count_append,
              List.count_eq_zero.mpr hnotin]
            simp
        · rw [alLookup_alInsert_ne _ _ _ _ ea] at hmap
          obtain ⟨g, hgl, hcnt⟩ := hB.1 a gid' hmap
          by_cases eg : gid' = gid
          · subst eg
            rw [hg] at hgl
            cases hgl
            refine ⟨updatedGroupForAdd alert now group, ?_, ?_⟩
            · rw [alLookup_alUpdate_self, hg]
              rfl
            · rw [show (updatedGroupForAdd alert now group).alert_ids =
                group.alert_ids ++ [alert.id] from rfl, List.count_append, hcnt,
                List.count_eq_zero.mpr (by simpa using ea)]
          · refine ⟨g, ?_, hcnt⟩
            rw [alLookup_alUpdate_ne _ _ _ _ eg]
            exact hgl
      · intro gid' g' hgl a ha
        dsimp only at hgl ⊢
        by_cases eg : gid' = gid
        · subst eg
          rw [alLookup_alUpdate_self, hg] at hgl
          simp only [Option.map_some'] at hgl
          cases hgl
          rw [show (updatedGroupForAdd alert now group).alert_ids =
            group.alert_ids ++ [alert.id] from rfl] at ha
          rcases List.mem_append.mp ha with hmem | hmem
          · have hmt := hB.2 gid' group hg a hmem
            have hne : a ≠ alert.id := fun e => by
              rw [e, hnone] at hmt
              cases hmt
            rw [alLookup_alInsert_ne _ _ _ _ hne]
            exact hmt
          · have : a = alert.id := by simpa using hmem
            subst this
            exact alLookup_alInsert_self _ _ _
        · rw [alLookup_alUpdate_ne _ _ _ _ eg] at hgl
          have hmt := hB.2 gid' g' hgl a ha
          have hne : a ≠ alert.id := fun e => by
            rw [e, hnone] at hmt
            cases hmt
          rw [alLookup_alInsert_ne _ _ _ _ hne]
          exact hmt
  · intro c alert sims ngid now hfresh hnone
    constructor
    · intro a gid' hmap
      dsimp only [create_new_group] at hmap ⊢
      by_cases ea : a = alert.id
      · subst ea
        rw [alLookup_alInsert_self] at hmap
        cases hmap
        refine ⟨newGroupRecord c alert sims ngid now, alLookup_alInsert_self _ _ _, ?_⟩
        rw [show (newGroupRecord c alert sims ngid now).alert_ids = [alert.id] from rfl]
        simp
      · rw [alLookup_alInsert_ne _ _ _ _ ea] at hmap
        obtain ⟨g, hgl, hcnt⟩ := hB.1 a gid' hmap
        have hne' : gid' ≠ ngid := fun e => by
          rw [e, hfresh] at hgl
          cases hgl
        refine ⟨g, ?_, hcnt⟩
        rw [alLookup_alInsert_ne _ _ _ _ hne']
        exact hgl
    · intro gid' g' hgl a ha
      dsimp only [create_new_group] at hgl ⊢
      by_cases eg : gid' = ngid
      · subst eg
        rw [alLookup_alInsert_self] at hgl
        cases hgl
        rw [show (newGroupRecord c alert sims gid' now).alert_ids = [alert.id]
          from rfl] at ha
        have : a = alert.id := by simpa using ha
        subst this
        exact alLookup_alInsert_self _ _ _
      · rw [alLookup_alInsert_ne _ _ _ _ eg] at hgl
        have hmt := hB.2 gid' g' hgl a ha
        have hne : a ≠ alert.id := fun e => by
          rw [e, hnone] at hmt
          cases hmt
        rw [alLookup_alInsert_ne _ _ _ _ hne]
        exact hmt
  · intro srcs tgt now hnotin
    rcases ht : alLookup s.active_groups tgt with _ | tg0
    · rw [merge_groups_of_none _ _ _ _ ht]
      exact hB
    · rw [merge_groups_of_some _ _ _ _ _ ht]
      have hfold := mergeFold_biConsistent tgt srcs tg0 s hnotin hB ht
      constructor
      · intro a gid hmap
        dsimp only at hmap ⊢
        obtain ⟨g, hgl, hcnt⟩ := hfold.1.1 a gid hmap
        by_cases eg : gid = tgt
        · subst eg
          rw [hfold.2] at hgl
          cases hgl
          refine ⟨{ (List.foldl (mergeStep gid) (tg0, s) srcs).1 with
            updated_at := now }, ?_, hcnt⟩
          rw [alLookup_alUpdate_self, hfold.2]
          rfl
        · refine ⟨g, ?_, hcnt⟩
          rw [alLookup_alUpdate_ne _ _ _ _ eg]
          exact hgl
      · intro gid g' hgl a ha
        dsimp only at hgl ⊢
        by_cases eg : gid = tgt
        · subst eg
          rw [alLookup_alUpdate_self, hfold.2] at hgl
          simp only [Option.map_some'] at hgl
          cases hgl
          exact hfold.1.2 gid _ hfold.2 a ha
        · rw [alLookup_alUpdate_ne _ _ _ _ eg] at hgl
          exact hfold.1.2 gid g' hgl a ha

/-- A concrete collaborator oracle where every call succeeds. -/
def collabOk : GrouperCollab :=
  { add_alert_res := .ok ()
    find_similar_res := .ok [sim0]
    gen_title_res := .ok "Generated title"
    gen_desc_res := .ok "Generated description"
    classify_res := .ok "Infrastructure" }

/-- C5 witness: the three preserved operations at the concrete baseline
state. -/
theorem C5_bidirectional_witness :
    BiConsistent (add_alert_to_group alert0 "g1" 0 state0) ∧
    BiConsistent (create_new_group collabOk alert0 [sim0] "g2" 0 state0).2 ∧
    BiConsistent (merge_groups ["gX"] "g1" 0 state0).2 :=
  ⟨(C5_bidirectional state0 biConsistent_state0).1 alert0 "g1" 0
      (by simp [state0, alLookup, alert0]),
   (C5_bidirectional state0 biConsistent_state0).2.1 collabOk alert0 [sim0] "g2" 0
      (by simp [state0, alLookup]) (by simp [state0, alLookup, alert0]),
   (C5_bidirectional state0 biConsistent_state0).2.2 ["gX"] "g1" 0 (by decide)⟩

/-! C7: collaborator failures do not abort ingestion or corrupt groups. -/

/-- The create-fallback path of `process_new_alert` always associates the
alert with the (fresh) new group and leaves every other group untouched. -/
theorem fallbackCreate_spec (c : GrouperCollab) (alert : Alert)
    (sims : List SimilarAlert) (newGid : String) (now : ℚ) (s : GrouperState) :
    ∃ gid, (fallbackCreate c alert sims newGid now s).1 = some gid ∧
      (∃ g, alLookup (fallbackCreate c alert sims newGid now s).2.active_groups gid =
          some g ∧ alert.id ∈ g.alert_ids) ∧
      (∀ gid', gid' ≠ gid →
        alLookup (fallbackCreate c alert sims newGid now s).2.active_groups gid' =
          alLookup s.active_groups gid') := by
  refine ⟨newGid, rfl, ⟨newGroupRecord c alert sims newGid now, ?_, ?_⟩, ?_⟩
  · dsimp only [fallbackCreate, create_new_group]
    exact alLookup_alInsert_self _ _ _
  · rw [show (newGroupRecord c alert sims newGid now).alert_ids = [alert.id] from rfl]
    simp
  · intro gid' hne
    dsimp only [fallbackCreate, create_new_group]
    exact alLookup_alInsert_ne _ _ _ _ hne

/-- C7: for every collaborator-outcome oracle — including ones where the
Similarity Backend or the classification/generation calls fail —
`process_new_alert` returns some group id, the alert's id is a member of
that group in the resulting index (the fallback being a newly created group
with templated metadata when the backend returned nothing), and every other
group's state is left exactly as it was. -/
theorem C7_failure_isolation (c : GrouperCollab) (alert : Alert) (newGid : String)
    (now : ℚ) (s : GrouperState) :
    ∃ gid, (process_new_alert c alert newGid now s).1 = some gid ∧
      (∃ g, alLookup (process_new_alert c alert newGid now s).2.active_groups gid =
          some g ∧ alert.id ∈ g.alert_ids) ∧
      (∀ gid', gid' ≠ gid →
        alLookup (process_new_alert c alert newGid now s).2.active_groups gid' =
          alLookup s.active_groups gid') := by
  unfold process_new_alert
  dsimp only
  by_cases h1 : vs_find_similar c = []
  · rw [if_pos h1]
    exact fallbackCreate_spec c alert _ newGid now s
  · rw [if_neg h1]
    by_cases h2 : find_candidate_groups (vs_find_similar c) s = []
    · rw [if_pos h2]
      exact fallbackCreate_spec c alert _ newGid now s
    · rw [if_neg h2]
      rcases hsel : select_best_group alert (find_candidate_groups (vs_find_similar c) s) s
        with _ | tid
      · exact fallbackCreate_spec c alert _ newGid now s
      · dsimp only
        by_cases h3 : tid = ""
        · rw [if_pos h3]
          exact fallbackCreate_spec c alert _ newGid now s
        · rw [if_neg h3]
          obtain ⟨g, hg, -, -, -⟩ := select_best_group_sound alert _ s tid hsel
          rw [add_alert_to_group_of_some _ _ _ _ _ hg]
          refine ⟨tid, rfl, ⟨updatedGroupForAdd alert now g, ?_, ?_⟩, ?_⟩
          · dsimp only
            rw [alLookup_alUpdate_self, hg]
            rfl
          · rw [show (updatedGroupForAdd alert now g).alert_ids =
              g.alert_ids ++ [alert.id] from rfl]
            simp
          · intro gid' hne
            dsimp only
            rw [alLookup_alUpdate_ne _ _ _ _ hne]

/-- An oracle where every collaborator call fails. -/
def collabAllFail : GrouperCollab :=
  { add_alert_res := .error "backend down"
    find_similar_res := .error "backend down"
    gen_title_res := .error "llm down"
    gen_desc_res := .error "llm down"
    classify_res := .error "llm down" }

/-- C7 witness: with every collaborator failing, processing a concrete
alert still lands it in a group and leaves the existing group intact. -/
theorem C7_failure_isolation_witness :
    ∃ gid, (process_new_alert collabAllFail alert0 "g2" 0 state0).1 = some gid ∧
      (∃ g, alLookup (process_new_alert collabAllFail alert0 "g2" 0
          state0).2.active_groups gid = some g ∧ alert0.id ∈ g.alert_ids) ∧
      (∀ gid', gid' ≠ gid →
        alLookup (process_new_alert collabAllFail alert0 "g2" 0
          state0).2.active_groups gid' = alLookup state0.active_groups gid') :=
  C7_failure_isolation collabAllFail alert0 "g2" 0 state0

/-! C8: RCA generation failure semantics. -/

/-- An RCA oracle where the backend and generation calls all fail. -/
def rcaGenFail : RCACollab :=
  { keywords_res := .error "llm down"
    embedding_res := .error "backend down"
    search_res := .error "backend down"
    gen_rca_res := .error "llm down" }

/-- C8 counterexample: when the generation call fails, `generate_rca` does
NOT set status Failed or return failure — the failure is caught inside
`_generate_rca_content`, which substitutes an error-text string, and the
group is marked Completed with a successful result. -/
theorem C8_rca_failure_counterexample :
    (generate_rca rcaGenFail group0 [] false 7).1.success = true ∧
    (generate_rca rcaGenFail group0 [] false 7).2.rca_status = RCAStatus.COMPLETED ∧
    (generate_rca rcaGenFail group0 [] false 7).1.rca_content =
      some "RCA generation failed due to technical error: llm down" ∧
    RCAStatus.COMPLETED ≠ RCAStatus.FAILED := by
  refine ⟨rfl, rfl, rfl, by decide⟩

/-- C8 amended: whenever the short-circuit (existing content and no force
flag) does not apply, `generate_rca` marks the group Completed, stamps the
generation time, and returns success with the produced content and
confidence — even when the generation call failed, in which case the
content is the templated error string (the Failed branch is reserved for
exceptions reaching `generate_rca` itself, which the inner catches
prevent). -/
theorem C8_rca_status (c : RCACollab) (group : AlertGroup) (alerts : List Alert)
    (force : Bool) (now : ℚ) (h : group.rca_content = none ∨ force = true) :
    (generate_rca c group alerts force now).1.success = true ∧
    (generate_rca c group alerts force now).2.rca_status = RCAStatus.COMPLETED ∧
    (generate_rca c group alerts force now).2.rca_generated_at = some now ∧
    (generate_rca c group alerts force now).1.rca_content =
      some (generate_rca_content c (gather_rca_context c
        { group with rca_status := RCAStatus.IN_PROGRESS } alerts)) ∧
    (∀ e, c.gen_rca_res = Except.error e →
      (generate_rca c group alerts force now).1.rca_content =
        some ("RCA generation failed due to technical error: " ++ e)) := by
  have hc : (strOptTruthy group.rca_content && !force) = false := by
    rcases h with h | h
    · rw [h]
      rfl
    · rw [h]
      simp
  unfold generate_rca
  rw [hc]
  refine ⟨rfl, rfl, rfl, rfl, ?_⟩
  intro e he
  simp only [generate_rca_content, he]
  rfl

/-- C8 witness: the amended behavior at the concrete failing oracle. -/
theorem C8_rca_status_witness :
    (generate_rca rcaGenFail group0 [] false 7).2.rca_status = RCAStatus.COMPLETED ∧
    (generate_rca rcaGenFail group0 [] false 7).2.rca_generated_at = some 7 ∧
    (generate_rca rcaGenFail group0 [] false 7).1.rca_content =
      some ("RCA generation failed due to technical error: " ++ "llm down") :=
  ⟨(C8_rca_status rcaGenFail group0 [] false 7 (Or.inl rfl)).2.1,
   (C8_rca_status rcaGenFail group0 [] false 7 (Or.inl rfl)).2.2.1,
   (C8_rca_status rcaGenFail group0 [] false 7 (Or.inl rfl)).2.2.2.2 "llm down" rfl⟩

/-! C9: the RCA confidence for the one-alert scenario. -/

/-- A 200-character generated content string. -/
def content200 : String := (List.replicate 200 'x').asString

/-- The concrete alert used in the C9 scenario: a single alert with no
service attribution, so no service pattern is detected. -/
def alertNoService : Alert := { alert0 with service_name := none }

set_option maxRecDepth 8192 in
/-- C9 counterexample: the scenario context (1 alert, no service pattern,
no historical analogues via a failed backend, 200-character content) yields
confidence 0.4, not the claimed 0.325: the alert-volume bucket for exactly
one alert is 0.5 (the `>= 1` bucket), not the 0.2 `else` bucket. -/
theorem C9_confidence_counterexample :
    calculate_rca_confidence
      (gather_rca_context rcaGenFail group0 [alertNoService]) content200 = 2/5 ∧
    (2/5 : ℚ) ≠ 13/40 := by
  constructor
  · have h4 : content200.length = 200 := by decide
    have h2 : (gather_rca_context rcaGenFail group0
        [alertNoService]).patterns.services_affected = [] := rfl
    have h3 : (gather_rca_context rcaGenFail group0
        [alertNoService]).similar_incidents = [] := rfl
    have h1 : (gather_rca_context rcaGenFail group0 [alertNoService]).alerts.length = 1 :=
      rfl
    unfold calculate_rca_confidence
    rw [h1, h2, h3, h4]
    norm_num
  · norm_num

/-- C9 amended: for any context with exactly one alert, no detected
service-pattern data, no historical analogues, and 200-character content,
the confidence is (0.5 + 0.4 + 0.3 + 0.4)/4 = 0.4. -/
theorem C9_rca_confidence (ctx : RCAContext) (content : String)
    (h1 : ctx.alerts.length = 1)
    (h2 : ctx.patterns.services_affected = [])
    (h3 : ctx.similar_incidents = [])
    (h4 : content.length = 200) :
    calculate_rca_confidence ctx content = 2/5 := by
  unfold calculate_rca_confidence
  rw [h1, h2, h3, h4]
  norm_num

set_option maxRecDepth 8192 in
/-- C9 witness: the amended confidence at the concrete scenario context. -/
theorem C9_rca_confidence_witness :
    calculate_rca_confidence
      (gather_rca_context rcaGenFail group0 [alertNoService]) content200 = 2/5 :=
  C9_rca_confidence (gather_rca_context rcaGenFail group0 [alertNoService]) content200
    rfl rfl rfl (by decide)

end RootIQ
